import Mathlib

/-!
Verification of the `KvaserCAN` channel-session wrapper (`kvaser_can.py`).

The Python class keeps three session fields (`self.channel`,
`self.is_initialized`, `self.is_started`) and delegates to an underlying
transport object `self.api` (CANAPI).  We embed each method as a pure Lean
function: the session fields become a `KvaserCAN` structure, the transport's
responses become explicit function arguments, and every transport invocation
performed by a method is recorded in an `ApiCall` trace returned alongside the
method's result.  Status codes are signed integers (`Int`), with
`0 = CANERR_NOERROR`, `-30 = CANERR_RX_EMPTY` and `-95 = CANERR_NOTINIT`,
exactly the constants used in the source.
-/

/-- One CAN message as built by `KvaserCAN.send` (the `Message` ctypes record):
an identifier, a data-length code, the fixed 8-byte data buffer (unset trailing
bytes stay zero, as in the zero-initialised ctypes array), and the flag bits
set by `send` (`1 if ... else 0` in the source). -/
structure CanMessage where
  id : Int
  dlc : Nat
  data : List Nat
  xtd : Nat
  rtr : Nat
  fdf : Nat
  brs : Nat
  esi : Nat
  deriving DecidableEq, Repr

/-- A call performed on the underlying transport (`self.api`), with the
arguments the session passes to it. -/
inductive ApiCall where
  | init (channel : Int)
  | start (bitrate_index : Int)
  | reset
  | exit
  | write (msg : CanMessage) (timeout : Int)
  | read (timeout : Int)
  | test (channel : Int)
  deriving DecidableEq, Repr

/-- The session fields of the Python `KvaserCAN` object.  The `api` handle and
the cached `version` string play no role in any claim and are omitted. -/
structure KvaserCAN where
  channel : Int
  is_initialized : Bool
  is_started : Bool
  deriving DecidableEq, Repr

/-- Result of a session method that may mutate the session fields: the status
code returned to the caller, the session fields afterwards, and the trace of
transport calls performed. -/
structure CallResult where
  status : Int
  state : KvaserCAN
  calls : List ApiCall
  deriving Repr

namespace KvaserCAN

/-- Embedding of `KvaserCAN.__init__`: `self.channel = -1`, `self.is_initialized = False`,
`self.is_started = False`. -/
def initialState : KvaserCAN :=
  { channel := -1, is_initialized := false, is_started := false }

/-- Embedding of `KvaserCAN.close`.  `reset_result` and `exit_result` are the statuses the
transport would return from `api.reset()` and `api.exit()`. -/
def close (s : KvaserCAN) (reset_result exit_result : Int) : CallResult :=
  let r0 : Int := 0
  let step1 : Int × KvaserCAN × List ApiCall :=
    if s.is_started then
      (reset_result, { s with is_started := false }, [ApiCall.reset])
    else
      (r0, s, [])
  let (result, s1, calls) := step1
  if s1.is_initialized then
    { status := exit_result
      state := { s1 with is_initialized := false, channel := -1 }
      calls := calls ++ [ApiCall.exit] }
  else
    { status := result, state := s1, calls := calls }

/-- Embedding of `KvaserCAN.open`.  The body first calls `self.close()` when
`self.is_initialized`, then calls `api.init(channel, mode)`; `init_result` is
the status that call returns.  `monitor_mode` only changes the mode bitmask
passed to the transport and is otherwise unused. -/
def «open» (s : KvaserCAN) (channel : Int) (monitor_mode : Bool)
    (reset_result exit_result init_result : Int) : CallResult :=
  let closed : KvaserCAN × List ApiCall :=
    if s.is_initialized then
      let c := s.close reset_result exit_result
      (c.state, c.calls)
    else
      (s, [])
  let (s1, calls) := closed
  let _ := monitor_mode
  if init_result = 0 then
    { status := init_result
      state := { s1 with channel := channel, is_initialized := true }
      calls := calls ++ [ApiCall.init channel] }
  else
    { status := init_result, state := s1, calls := calls ++ [ApiCall.init channel] }

/-- Embedding of `KvaserCAN.start`.  `start_result` maps the bitrate index handed to
`api.start` to the status the transport returns. -/
def start (s : KvaserCAN) (bitrate_index : Int) (start_result : Int → Int) :
    CallResult :=
  if !s.is_initialized then
    { status := -95, state := s, calls := [] }
  else
    let result := start_result bitrate_index
    if result = 0 then
      { status := result, state := { s with is_started := true }
        calls := [ApiCall.start bitrate_index] }
    else
      { status := result, state := s, calls := [ApiCall.start bitrate_index] }

end KvaserCAN

/-- The `Message` value `KvaserCAN.send` constructs before handing it to
`api.write`: truncate `data` to 8 bytes when longer, copy it into the
zero-initialised 8-byte buffer, set `dlc` to the (possibly truncated) length,
and set the flag bits. -/
def buildMessage (msg_id : Int) (data : List Nat)
    (extended_id remote_frame : Bool) : CanMessage :=
  let data_len := data.length
  let trunc : Nat × List Nat :=
    if data_len > 8 then (8, data.take 8) else (data_len, data)
  let (data_len, data) := trunc
  { id := msg_id
    dlc := data_len
    data := data ++ List.replicate (8 - data_len) 0
    xtd := if extended_id then 1 else 0
    rtr := if remote_frame then 1 else 0
    fdf := 0
    brs := 0
    esi := 0 }

namespace KvaserCAN

/-- Embedding of `KvaserCAN.send`.  `write_result` maps the message and timeout handed to
`api.write` to the status the transport returns.  The method never mutates the
session fields, so only the status and the call trace are returned. -/
def send (s : KvaserCAN) (msg_id : Int) (data : List Nat)
    (extended_id remote_frame : Bool) (timeout : Int)
    (write_result : CanMessage → Int → Int) : Int × List ApiCall :=
  if !s.is_started then
    (-95, [])
  else
    let msg := buildMessage msg_id data extended_id remote_frame
    (write_result msg timeout, [ApiCall.write msg timeout])

/-- Embedding of `KvaserCAN.receive`.  `read_result` maps the timeout handed to `api.read`
to the `(status, message-or-None)` pair the transport returns. -/
def receive (s : KvaserCAN) (timeout : Int)
    (read_result : Int → Int × Option CanMessage) :
    (Int × Option CanMessage) × List ApiCall :=
  if !s.is_started then
    ((-95, none), [])
  else
    (read_result timeout, [ApiCall.read timeout])

/-- Embedding of `KvaserCAN.scan_channels`.  `test_result` maps a channel index to the
`(result, state)` pair `api.test` returns for it; only `state == 0` admits the
channel.  The session fields are never assigned, so the state component of the
result is `s` itself. -/
def scan_channels (s : KvaserCAN) (max_channels : Nat)
    (test_result : Nat → Int × Int) : List Nat × KvaserCAN × List ApiCall :=
  let chans := (List.range max_channels).foldl
    (fun acc ch => if (test_result ch).2 = 0 then acc ++ [ch] else acc) []
  (chans, s, (List.range max_channels).map (fun ch => ApiCall.test (ch : Int)))

end KvaserCAN

/-- The polling loop of `KvaserCAN.monitor`.  `reads` gives, for each poll
index, the `(status, message)` pair `api.read(timeout=100)` returns on that
iteration; `callback` is the optional per-message callback; `fuel` is the
number of poll iterations the wall-clock budget `duration` still allows (each
iteration first re-checks `time.time() - start_time < duration`, which the
embedding renders as `fuel = 0`); `i` is the current poll index and `count`
the accumulated `msg_count`. -/
def monitorLoop (reads : Nat → Int × CanMessage)
    (callback : Option (CanMessage → Bool)) :
    Nat → Nat → Nat → Nat
  | 0, _, count => count
  | fuel + 1, i, count =>
    let r := reads i
    if r.1 = 0 then
      match callback with
      | some cb =>
        if cb r.2 then monitorLoop reads callback fuel (i + 1) (count + 1)
        else count + 1
      | none => monitorLoop reads callback fuel (i + 1) (count + 1)
    else if r.1 ≠ -30 then
      count
    else
      monitorLoop reads callback fuel (i + 1) count

namespace KvaserCAN

/-- Embedding of `KvaserCAN.monitor`.  Returns `-95` when not started, otherwise the final
`msg_count` of the polling loop (a non-negative count). -/
def monitor (s : KvaserCAN) (fuel : Nat) (reads : Nat → Int × CanMessage)
    (callback : Option (CanMessage → Bool)) : Int :=
  if !s.is_started then
    -95
  else
    (monitorLoop reads callback fuel 0 0 : Nat)

end KvaserCAN

/-- A session in the `Closed` state (as produced by `__init__`). -/
def sessClosed : KvaserCAN := KvaserCAN.initialState

/-- A session in the `Initialized` state, bound to channel 0 (as produced by a
successful `open(0)`). -/
def sessInit : KvaserCAN :=
  { channel := 0, is_initialized := true, is_started := false }

/-- A session in the `Started` state on channel 0 (as produced by a successful
`open(0)` followed by a successful `start`). -/
def sessStarted : KvaserCAN :=
  { channel := 0, is_initialized := true, is_started := true }

/-- The session-field states reachable from construction (`__init__`) by any
sequence of method calls with arbitrary transport results.  `send`, `receive`
and `monitor` never assign the session fields (their embeddings return no
state), so they contribute no step; `scan_channels` passes the state through
unchanged and is included for completeness. -/
inductive Reachable : KvaserCAN → Prop where
  | init : Reachable KvaserCAN.initialState
  | openStep (s : KvaserCAN) (ch : Int) (m : Bool) (rr er ir : Int) :
      Reachable s → Reachable (s.«open» ch m rr er ir).state
  | startStep (s : KvaserCAN) (idx : Int) (f : Int → Int) :
      Reachable s → Reachable (s.start idx f).state
  | closeStep (s : KvaserCAN) (rr er : Int) :
      Reachable s → Reachable (s.close rr er).state
  | scanStep (s : KvaserCAN) (n : Nat) (t : Nat → Int × Int) :
      Reachable s → Reachable (s.scan_channels n t).2.1

/-- The representation invariant of the three session fields: `is_started`
implies `is_initialized`, and an uninitialized session carries the unbound
sentinel `channel = -1`.  Together these make the fields encode exactly one of
the states `Closed`, `Initialized`, `Started`. -/
def sessionInv (s : KvaserCAN) : Prop :=
  (s.is_started = true → s.is_initialized = true) ∧
  (s.is_initialized = false → s.channel = -1)

theorem sessionInv_initial : sessionInv KvaserCAN.initialState := by
  constructor <;> simp [KvaserCAN.initialState]

theorem sessionInv_close (s : KvaserCAN) (rr er : Int) (h : sessionInv s) :
    sessionInv (s.close rr er).state := by
  obtain ⟨c, i, st⟩ := s
  obtain ⟨h1, h2⟩ := h
  cases i <;> cases st <;>
    simp_all [KvaserCAN.close, sessionInv]

theorem sessionInv_open (s : KvaserCAN) (ch : Int) (m : Bool) (rr er ir : Int)
    (h : sessionInv s) : sessionInv (s.«open» ch m rr er ir).state := by
  obtain ⟨c, i, st⟩ := s
  obtain ⟨h1, h2⟩ := h
  cases i <;> cases st <;>
    simp_all [KvaserCAN.«open», KvaserCAN.close, sessionInv] <;>
    split <;> simp_all

theorem sessionInv_start (s : KvaserCAN) (idx : Int) (f : Int → Int)
    (h : sessionInv s) : sessionInv (s.start idx f).state := by
  obtain ⟨c, i, st⟩ := s
  obtain ⟨h1, h2⟩ := h
  cases i <;> cases st <;>
    simp_all [KvaserCAN.start, sessionInv] <;>
    split <;> simp_all

theorem reachable_sessionInv (s : KvaserCAN) (h : Reachable s) : sessionInv s := by
  induction h with
  | init => exact sessionInv_initial
  | openStep s ch m rr er ir _ ih => exact sessionInv_open s ch m rr er ir ih
  | startStep s idx f _ ih => exact sessionInv_start s idx f ih
  | closeStep s rr er _ ih => exact sessionInv_close s rr er ih
  | scanStep s n t _ ih => exact ih

theorem sessInit_reachable : Reachable sessInit := by
  have h := Reachable.openStep KvaserCAN.initialState 0 false 0 0 0 Reachable.init
  exact h

theorem sessStarted_reachable : Reachable sessStarted := by
  have h := Reachable.startStep sessInit (-3) (fun _ => 0) sessInit_reachable
  exact h

/-- C1: for every session whose state is not `Started`, `send` returns the bare
`NotInitialized` code `-95` and `receive` returns `(-95, none)`, and neither
performs any call on the underlying transport (the `ApiCall` trace is empty,
so `api.write` / `api.read` are never invoked). -/
theorem send_receive_not_started (s : KvaserCAN) (msg_id : Int)
    (data : List Nat) (ext rtr : Bool) (t1 t2 : Int)
    (w : CanMessage → Int → Int) (rd : Int → Int × Option CanMessage)
    (h : s.is_started = false) :
    s.send msg_id data ext rtr t1 w = (-95, []) ∧
    s.receive t2 rd = ((-95, none), []) := by
  constructor <;> simp [KvaserCAN.send, KvaserCAN.receive, h]

/-- Witness for C1 at the `Initialized` (not `Started`) session. -/
theorem send_receive_not_started_wit :
    sessInit.send 688 [1, 2] false false 0 (fun _ _ => 0) = (-95, []) ∧
    sessInit.receive 1000 (fun _ => (0, none)) = ((-95, none), []) :=
  send_receive_not_started sessInit 688 [1, 2] false false 0 1000
    (fun _ _ => 0) (fun _ => (0, none)) rfl

/-- C2: on a `Started` session, `send` hands the transport exactly the message
built by `buildMessage` and returns the transport status unchanged (truncation
never produces an error); when the payload is longer than 8 bytes the message
has `dlc = 8` and its data buffer is exactly the first 8 input bytes, and when
the payload has at most 8 bytes `dlc` equals the input length and the input is
copied unchanged into the zero-padded 8-byte buffer. -/
theorem send_truncates_to_eight (s : KvaserCAN) (msg_id : Int)
    (data : List Nat) (ext rtr : Bool) (t : Int)
    (w : CanMessage → Int → Int) (h : s.is_started = true) :
    (s.send msg_id data ext rtr t w).1 = w (buildMessage msg_id data ext rtr) t ∧
    (s.send msg_id data ext rtr t w).2 =
      [ApiCall.write (buildMessage msg_id data ext rtr) t] ∧
    (8 < data.length →
      (buildMessage msg_id data ext rtr).dlc = 8 ∧
      (buildMessage msg_id data ext rtr).data = data.take 8) ∧
    (data.length ≤ 8 →
      (buildMessage msg_id data ext rtr).dlc = data.length ∧
      (buildMessage msg_id data ext rtr).data =
        data ++ List.replicate (8 - data.length) 0) := by
  refine ⟨by simp [KvaserCAN.send, h], by simp [KvaserCAN.send, h], ?_, ?_⟩
  · intro hlen
    simp [buildMessage, hlen, Nat.lt_iff_add_one_le.mp hlen]
  · intro hlen
    simp [buildMessage, Nat.not_lt.mpr hlen]

/-- Witness for C2: a 10-byte payload on a `Started` session is truncated to
its first 8 bytes with `dlc = 8`, and a 3-byte payload is copied unchanged
with `dlc = 3`. -/
theorem send_truncates_to_eight_wit :
    (buildMessage 688 [1, 2, 3, 4, 5, 6, 7, 8, 9, 10] false false).dlc = 8 ∧
    (buildMessage 688 [1, 2, 3, 4, 5, 6, 7, 8, 9, 10] false false).data =
      [1, 2, 3, 4, 5, 6, 7, 8] ∧
    (buildMessage 688 [1, 2, 3] false false).dlc = 3 := by
  have h10 := send_truncates_to_eight sessStarted 688
    [1, 2, 3, 4, 5, 6, 7, 8, 9, 10] false false 0 (fun _ _ => 0) rfl
  have h3 := send_truncates_to_eight sessStarted 688 [1, 2, 3] false false 0
    (fun _ _ => 0) rfl
  refine ⟨(h10.2.2.1 (by decide)).1, ?_, (h3.2.2.2 (by decide)).1⟩
  have := (h10.2.2.1 (by decide)).2
  simpa using this

/-- The recognized bit-rate preset set, following the spec's words: a selector
is a signed index where "negative values select well-known presets, never an
arbitrary numeric baud value", with documented examples `-3` = 250 kbit/s and
`0` = 1 Mbit/s; the exact table is left open by the spec, but every recognized
preset lies in `{-9, …, 0}` under any reading, so large positive selectors such
as `999` are certainly not recognized.  This definition exists only to state
the validation claim; the source performs no such validation. -/
def specRecognizedPreset (i : Int) : Bool :=
  decide (-9 ≤ i ∧ i ≤ 0)

/-- Counterexample to C3: on the `Initialized` session, `start` with the
unrecognized selector `999` still invokes the transport's start operation
(the trace is `[ApiCall.start 999]`, not empty) and returns the transport's
status (here `0`) rather than a locally produced `InvalidBitrate` error. -/
theorem start_no_validation_counterexample :
    specRecognizedPreset 999 = false ∧
    (sessInit.start 999 (fun _ => 0)).calls = [ApiCall.start 999] ∧
    (sessInit.start 999 (fun _ => 0)).status = 0 := by
  exact ⟨by decide, rfl, rfl⟩

/-- C3 amended: `start` performs no validation of the bitrate selector.  For
every `Initialized` session and every selector — recognized preset or not —
the selector is forwarded unchanged to the transport's start operation and the
transport's status is returned; the only locally checked precondition is
`NotInitialized` (`-95` without any transport call when the session is not
initialized). -/
theorem start_forwards_any_selector (s : KvaserCAN) (idx : Int)
    (f : Int → Int) (h : s.is_initialized = true) :
    (s.start idx f).calls = [ApiCall.start idx] ∧
    (s.start idx f).status = f idx := by
  constructor <;> simp [KvaserCAN.start, h] <;> split <;> simp

/-- Witness for the amended C3 at the `Initialized` session and selector 999. -/
theorem start_forwards_any_selector_wit :
    (sessInit.start 999 (fun _ => -7)).calls = [ApiCall.start 999] ∧
    (sessInit.start 999 (fun _ => -7)).status = -7 :=
  start_forwards_any_selector sessInit 999 (fun _ => -7) rfl

/-- Counterexample to C4: on the `Started` session, a failing stop step
(`reset` returns `-1`) followed by a succeeding release step (`exit` returns
`0`) makes `close` return `0` — the status of the last executed step — even
though the last non-zero status of the two steps is `-1`, so "success only if
both executed steps succeeded" fails. -/
theorem close_last_nonzero_counterexample :
    (sessStarted.close (-1) 0).calls = [ApiCall.reset, ApiCall.exit] ∧
    (sessStarted.close (-1) 0).status = 0 ∧
    ((0 : Int) ≠ -1) := by
  exact ⟨rfl, rfl, by decide⟩

/-- C4 amended: `close()` executes the stop step (transport `reset`, only when
`Started`) and then the release step (transport `exit`, only when
`Initialized`), performing the release step even when the stop step returned
an error; it returns the status of the last executed step (the release status
when `Initialized`, else the stop status when `Started`, else `0`), so a stop
failure followed by a successful release reports success. -/
theorem close_runs_both_steps (s : KvaserCAN) (rr er : Int) :
    (s.close rr er).calls =
      (if s.is_started then [ApiCall.reset] else []) ++
      (if s.is_initialized then [ApiCall.exit] else []) ∧
    (s.close rr er).status =
      (if s.is_initialized then er else if s.is_started then rr else 0) := by
  obtain ⟨c, i, st⟩ := s
  cases i <;> cases st <;> simp [KvaserCAN.close]

/-- C5: `close` is idempotent.  After one `close` the session is in the
`Closed` state (`is_initialized` and `is_started` both false); a second
consecutive `close` returns success (`0`), makes no transport call, and leaves
the state unchanged; if the first close succeeded both calls return success;
and across the two calls the handle is released (`api.exit` invoked) at most
once, on the transition to `Closed`. -/
theorem close_idempotent (s : KvaserCAN) (r1 e1 r2 e2 : Int) :
    (s.close r1 e1).state.is_initialized = false ∧
    (s.close r1 e1).state.is_started = false ∧
    (s.close r1 e1).state.close r2 e2 =
      { status := 0, state := (s.close r1 e1).state, calls := [] } ∧
    ((s.close r1 e1).status = 0 →
      (s.close r1 e1).status = 0 ∧
      ((s.close r1 e1).state.close r2 e2).status = 0) ∧
    ((s.close r1 e1).calls ++
      ((s.close r1 e1).state.close r2 e2).calls).count ApiCall.exit ≤ 1 := by
  obtain ⟨c, i, st⟩ := s
  cases i <;> cases st <;> simp [KvaserCAN.close]

/-- Witness for C5 at the `Started` session with both transport steps
succeeding: both closes return success. -/
theorem close_idempotent_wit :
    (sessStarted.close 0 0).status = 0 ∧
    ((sessStarted.close 0 0).state.close 0 0).status = 0 :=
  (close_idempotent sessStarted 0 0 0 0).2.2.2.1 rfl

/-- C6: on every reachable session that is not in the `Closed` state, `open`
first performs a full close of the prior binding: the transport observes the
stop step (`reset`, only when `Started`) and the release step (`exit`) before
the new `init` call, so at most one handle is bound at any time. -/
theorem open_closes_prior_binding (s : KvaserCAN) (ch : Int) (m : Bool)
    (rr er ir : Int) (hr : Reachable s)
    (hnc : ¬ (s.is_initialized = false ∧ s.is_started = false)) :
    (s.«open» ch m rr er ir).calls =
      (if s.is_started then [ApiCall.reset] else []) ++
      [ApiCall.exit, ApiCall.init ch] := by
  have hinv := reachable_sessionInv s hr
  have hi : s.is_initialized = true := by
    cases hx : s.is_initialized with
    | true => rfl
    | false =>
      exfalso
      apply hnc
      refine ⟨hx, ?_⟩
      cases hy : s.is_started with
      | false => rfl
      | true => exact absurd (hinv.1 hy) (by simp [hx])
  obtain ⟨c, i, st⟩ := s
  cases st <;> simp_all [KvaserCAN.«open», KvaserCAN.close] <;> split <;> simp

/-- Witness for C6 at the reachable `Started` session: `open(3)` emits
`reset`, `exit`, then `init 3`. -/
theorem open_closes_prior_binding_wit :
    (sessStarted.«open» 3 false 0 0 0).calls =
      [ApiCall.reset, ApiCall.exit, ApiCall.init 3] := by
  have h := open_closes_prior_binding sessStarted 3 false 0 0 0
    sessStarted_reachable (by simp [sessStarted])
  simpa [sessStarted] using h

theorem foldl_append_filter {α : Type} (q : α → Prop) [DecidablePred q] :
    ∀ (l acc : List α),
      l.foldl (fun acc ch => if q ch then acc ++ [ch] else acc) acc =
        acc ++ l.filter (fun ch => decide (q ch))
  | [], acc => by simp
  | x :: xs, acc => by
    by_cases h : q x <;>
      simp [h, foldl_append_filter q xs]

/-- C7: `scan_channels(max_channels)` probes channels `0 .. max_channels - 1`
in order (the trace is exactly one `api.test` per index, in ascending order)
and returns exactly the indices whose probe state code is `0`, in ascending
order (a filter of the ascending range, hence pairwise increasing); it leaves
the session fields unchanged, and returns the empty list — never an error
status — when no channel reports state `0`. -/
theorem scan_channels_collects (s : KvaserCAN) (max_channels : Nat)
    (test_result : Nat → Int × Int) :
    (s.scan_channels max_channels test_result).1 =
      (List.range max_channels).filter
        (fun ch => decide ((test_result ch).2 = 0)) ∧
    (s.scan_channels max_channels test_result).2.1 = s ∧
    (s.scan_channels max_channels test_result).2.2 =
      (List.range max_channels).map (fun ch => ApiCall.test (ch : Int)) ∧
    List.Pairwise (· < ·) (s.scan_channels max_channels test_result).1 ∧
    ((∀ ch, ch < max_channels → (test_result ch).2 ≠ 0) →
      (s.scan_channels max_channels test_result).1 = []) := by
  have hfold : (s.scan_channels max_channels test_result).1 =
      (List.range max_channels).filter
        (fun ch => decide ((test_result ch).2 = 0)) := by
    simpa [KvaserCAN.scan_channels] using
      foldl_append_filter (fun ch => (test_result ch).2 = 0)
        (List.range max_channels) []
  refine ⟨hfold, rfl, rfl, ?_, ?_⟩
  · rw [hfold]
    exact (List.pairwise_lt_range max_channels).filter _
  · intro hnone
    rw [hfold, List.filter_eq_nil_iff]
    intro a ha
    simp only [List.mem_range] at ha
    simp [hnone a ha]

/-- Witness for C7, the spec's own test: scanning 8 channels against a
transport where exactly channels 2 and 5 report state `0` yields `[2, 5]` and
leaves the session unchanged. -/
theorem scan_channels_collects_wit :
    (sessClosed.scan_channels 8
      (fun ch => (0, if ch = 2 ∨ ch = 5 then 0 else 1))).1 = [2, 5] ∧
    (sessClosed.scan_channels 8
      (fun ch => (0, if ch = 2 ∨ ch = 5 then 0 else 1))).2.1 = sessClosed := by
  have h := scan_channels_collects sessClosed 8
    (fun ch => (0, if ch = 2 ∨ ch = 5 then 0 else 1))
  refine ⟨?_, h.2.1⟩
  rw [h.1]
  decide

/-- C8: when the callback returns `false` for a delivered frame, the monitor
loop stops immediately after that callback invocation — regardless of the
remaining duration (`fuel`) — returning the incremented count; in particular,
on a `Started` session whose first poll delivers a frame for which the
callback returns `false`, `monitor` returns exactly `1`. -/
theorem monitor_stops_on_callback_false :
    (∀ (reads : Nat → Int × CanMessage) (cb : CanMessage → Bool)
        (fuel i count : Nat),
      (reads i).1 = 0 → cb (reads i).2 = false →
      monitorLoop reads (some cb) (fuel + 1) i count = count + 1) ∧
    (∀ (s : KvaserCAN) (reads : Nat → Int × CanMessage)
        (cb : CanMessage → Bool) (fuel : Nat),
      s.is_started = true → (reads 0).1 = 0 → cb (reads 0).2 = false →
      s.monitor (fuel + 1) reads (some cb) = 1) := by
  constructor
  · intro reads cb fuel i count h1 h2
    simp [monitorLoop, h1, h2]
  · intro s reads cb fuel hs h1 h2
    simp only [KvaserCAN.monitor, hs, Bool.not_true, Bool.false_eq_true,
      if_false]
    simp [monitorLoop, h1, h2]

/-- Witness for C8: with a transport delivering a frame on every poll and a
callback that always answers `false`, `monitor` with a large remaining
duration returns `1`. -/
theorem monitor_stops_on_callback_false_wit :
    sessStarted.monitor 100 (fun _ => (0, buildMessage 688 [1] false false))
      (some (fun _ => false)) = 1 :=
  monitor_stops_on_callback_false.2 sessStarted
    (fun _ => (0, buildMessage 688 [1] false false)) (fun _ => false) 99
    rfl rfl rfl

/-- C9: during `monitor` on a `Started` session, a poll whose read status is
`RxEmpty` (`-30`) continues the loop with the count unchanged; a poll with any
other non-zero status ends the loop immediately, returning the count
accumulated before the failure; and `monitor`'s return value on a `Started`
session is always a non-negative count, never the error status. -/
theorem monitor_rx_empty_continues_other_errors_stop :
    (∀ (reads : Nat → Int × CanMessage) (cb : Option (CanMessage → Bool))
        (fuel i count : Nat),
      (reads i).1 = -30 →
      monitorLoop reads cb (fuel + 1) i count =
        monitorLoop reads cb fuel (i + 1) count) ∧
    (∀ (reads : Nat → Int × CanMessage) (cb : Option (CanMessage → Bool))
        (fuel i count : Nat),
      (reads i).1 ≠ 0 → (reads i).1 ≠ -30 →
      monitorLoop reads cb (fuel + 1) i count = count) ∧
    (∀ (s : KvaserCAN) (fuel : Nat) (reads : Nat → Int × CanMessage)
        (cb : Option (CanMessage → Bool)),
      s.is_started = true → 0 ≤ s.monitor fuel reads cb) := by
  refine ⟨?_, ?_, ?_⟩
  · intro reads cb fuel i count h
    simp [monitorLoop, h]
  · intro reads cb fuel i count h1 h2
    simp [monitorLoop, h1, h2]
  · intro s fuel reads cb hs
    simp only [KvaserCAN.monitor, hs, Bool.not_true, Bool.false_eq_true,
      if_false]
    exact Int.natCast_nonneg _

/-- Witness for C9: an `RxEmpty` poll followed by a delivered frame and then a
fatal status `-77` yields the identities of the theorem at concrete inputs. -/
theorem monitor_rx_empty_continues_other_errors_stop_wit :
    monitorLoop (fun _ => (-30, buildMessage 0 [] false false)) none 4 0 0 =
      monitorLoop (fun _ => (-30, buildMessage 0 [] false false)) none 3 1 0 ∧
    monitorLoop (fun _ => (-77, buildMessage 0 [] false false)) none 4 0 5 = 5 ∧
    0 ≤ sessStarted.monitor 4 (fun _ => (-77, buildMessage 0 [] false false))
      none := by
  refine ⟨?_, ?_, ?_⟩
  · exact monitor_rx_empty_continues_other_errors_stop.1
      (fun _ => (-30, buildMessage 0 [] false false)) none 3 0 0 rfl
  · exact monitor_rx_empty_continues_other_errors_stop.2.1
      (fun _ => (-77, buildMessage 0 [] false false)) none 3 0 5 (by decide)
      (by decide)
  · exact monitor_rx_empty_continues_other_errors_stop.2.2 sessStarted 4
      (fun _ => (-77, buildMessage 0 [] false false)) none rfl

/-- C10: in every session state reachable from construction by any sequence of
method calls with arbitrary transport results, `is_started = true` implies
`is_initialized = true`, and `is_initialized = false` implies
`channel = -1` (the unbound sentinel) — so the three fields always encode
exactly one of the states `Closed`, `Initialized`, `Started`. -/
theorem reachable_state_invariant (s : KvaserCAN) (h : Reachable s) :
    (s.is_started = true → s.is_initialized = true) ∧
    (s.is_initialized = false → s.channel = -1) :=
  reachable_sessionInv s h

/-- Witness for C10 at the construction state, which is reachable by the empty
call sequence. -/
theorem reachable_state_invariant_wit :
    (KvaserCAN.initialState.is_started = true →
      KvaserCAN.initialState.is_initialized = true) ∧
    (KvaserCAN.initialState.is_initialized = false →
      KvaserCAN.initialState.channel = -1) :=
  reachable_state_invariant KvaserCAN.initialState Reachable.init
